import Mathlib

/-!
Verification of the Tweetube channel-deletion / recovery subsystem.

The definitions below are a shallow embedding of
`backend/src/controllers/user.controller.js` (classes
`ChannelDeletionService` and `WatchHistoryManagementService`) together with
the document schemas they operate on
(`deletedChannel.model.js`, `subscription.model.js`, `video.model.js`,
`watchHistory.model.js`, `user.model.js`, the engagement model, and the
comment/playlist/tweet collections as used by the controller).

Modelling conventions:
* A MongoDB database is a record of lists of documents (`DB`); ObjectIds are
  `Nat`, drawn from a `nextId` counter in the state.
* `updateMany`/`deleteMany` become `List.map` / `List.filter` over the
  matching predicate.  MongoDB's `updateMany` supports no `limit` option, so
  the `{ session, limit: batchSize }` options object passed by
  `handleSubscriptions` updates every matching document in one operation;
  the embedding reflects that.
* A non-pipeline update document treats a string such as `'$video'` as a
  literal string, not as a field reference; the embedding stores the literal
  (`MVal.str "$video"`), exactly as MongoDB does for plain update documents.
* `session.withTransaction` is modelled as all-or-nothing state passing:
  every write issued by the service passes the session, so an error from the
  transaction body discards the intermediate state and the caller keeps the
  pre-call state.
* Wall-clock time (`new Date()`) is an explicit `Time` parameter.
-/

deriving instance DecidableEq for Except

namespace Tweetube

abbrev MongoId := Nat

/-- Milliseconds since the epoch, as produced by `Date.now()`. -/
abbrev Time := Nat

/-- Value stored in a loosely-typed document field: an ObjectId, a literal
string, or `null`.  Needed because the watch-history updates in the source
write nulls and `'$...'` literal strings into id-valued fields. -/
inductive MVal where
  | oid (i : MongoId)
  | str (s : String)
  | null
deriving DecidableEq

/-- Errors raised by the services: `ApiError(statusCode, message)` from
`utils/ApiError.js`, mongoose schema-validation failures, and MongoDB
duplicate-key errors from unique indexes.  Only the message is read by the
`catch` blocks that rewrap errors. -/
inductive JsError where
  | api (statusCode : Nat) (message : String)
  | validation (message : String)
  | duplicateKey (message : String)
deriving DecidableEq

/-- Message text of an error, as read by `error.message` in the source. -/
def JsError.message : JsError → String
  | .api _ m => m
  | .validation m => m
  | .duplicateKey m => m

/-- Field of a plain JavaScript object returned to the caller. -/
inductive JsField where
  | bool (b : Bool)
  | str (s : String)
  | oid (i : MongoId)
deriving DecidableEq

/-- A JavaScript object literal, as a list of key/value pairs. -/
abbrev JsObject := List (String × JsField)

/-- User document: the fields read and written by the deletion and recovery
services (`user.model.js` plus the denormalized counters the services use).
`password` is `Option String` because it is what create-validation is about:
every User schema variant in the repository marks it required, yet
`recoverChannel` builds its user document without one. -/
structure User where
  _id : MongoId
  username : String
  fullName : String
  email : String
  avatar : String
  coverImage : String
  subscriberCount : Nat
  videoCount : Nat
  totalViews : Nat
  password : Option String
deriving DecidableEq

/-- Video document (`video.model.js`): fields used by the deletion flow. -/
structure Video where
  _id : MongoId
  owner : Option MongoId
  title : String
  views : Nat
  isPublished : Bool
deriving DecidableEq

/-- Subscription edge (`subscription.model.js`). -/
structure Subscription where
  subscriber : MongoId
  channel : MongoId
  status : String
deriving DecidableEq

/-- Engagement edge (engagement model): polymorphic reaction record. -/
structure Engagement where
  user : MongoId
  content : MongoId
  contentType : String
  engagementType : String
deriving DecidableEq

/-- Comment document, as used by `handleComments` and `getChannelStats`. -/
structure Comment where
  _id : MongoId
  owner : Option MongoId
  content : String
deriving DecidableEq

/-- Playlist document, as used by `handlePlaylists`. -/
structure Playlist where
  _id : MongoId
  owner : MongoId
deriving DecidableEq

/-- Tweet document, as used by `handleTweets`. -/
structure Tweet where
  _id : MongoId
  owner : MongoId
deriving DecidableEq

/-- The `metadata` sub-document written on watch-history records by the
deletion and restore flows. -/
structure WHMetadata where
  deletedChannel : Option Bool
  originalVideoId : Option MVal
deriving DecidableEq

/-- Watch-history document (`watchHistory.model.js` plus the archival fields
the services write).  `archived` defaults to false; `originalVideoId` is the
top-level field written by the `archived` branch of `handleWatchHistory`,
distinct from `metadata.originalVideoId`. -/
structure WatchHistoryDoc where
  user : MVal
  video : MVal
  sessionId : Option String
  device : String
  archived : Bool
  archivedAt : Option Time
  archivedReason : Option String
  originalVideoId : Option MVal
  metadata : WHMetadata
deriving DecidableEq

/-- The frozen statistics snapshot stored on a tombstone. -/
structure Stats where
  subscriberCount : Nat
  videoCount : Nat
  totalViews : Nat
  totalLikes : Nat
  totalComments : Nat
deriving DecidableEq

/-- Per-content-class retention policy map stored on a tombstone. -/
structure Retention where
  videos : String
  comments : String
  analytics : String
deriving DecidableEq

/-- DeletedChannel tombstone document (`deletedChannel.model.js`). -/
structure DeletedChannelDoc where
  _id : MongoId
  originalUserId : MongoId
  username : String
  fullName : String
  email : String
  stats : Stats
  deletionReason : String
  deletedAt : Time
  deletedBy : Option MongoId
  recoveryDeadline : Time
  isRecoverable : Bool
  dataRetention : Retention
deriving DecidableEq

/-- The whole document database. -/
structure DB where
  users : List User
  videos : List Video
  subscriptions : List Subscription
  engagements : List Engagement
  comments : List Comment
  playlists : List Playlist
  tweets : List Tweet
  watchHistory : List WatchHistoryDoc
  deletedChannels : List DeletedChannelDoc
  nextId : MongoId
deriving DecidableEq

/-- Caller-supplied `options.dataRetention` object; each field is optional. -/
structure RetentionOptions where
  videos : Option String
  comments : Option String
  analytics : Option String
deriving DecidableEq

/-- Caller-supplied `options` argument of `deleteChannel`. -/
structure DeletionOptions where
  dataRetention : Option RetentionOptions
  watchHistoryRetention : Option String
deriving DecidableEq

/-- Empty options object `{}`. -/
def DeletionOptions.none : DeletionOptions := ⟨Option.none, Option.none⟩

/-- Valid `deletionReason` enum values (`deletedChannel.model.js`). -/
def deletionReasons : List String :=
  ["user_request", "policy_violation", "copyright", "spam", "other"]

/-- Valid retention-policy enum values (`deletedChannel.model.js`). -/
def retentionValues : List String := ["deleted", "archived", "anonymized"]

/-- Recovery grace period: 30 days in milliseconds
(`recoveryDeadline` default in `deletedChannel.model.js`). -/
def recoveryGraceMs : Nat := 30 * 24 * 60 * 60 * 1000

namespace ChannelDeletionService

/-- The ids of videos owned by `userId`:
`Video.find({ owner: userId }).distinct('_id')`. -/
def ownedVideoIds (db : DB) (userId : MongoId) : List MongoId :=
  (db.videos.filter (fun v => decide (v.owner = some userId))).map (fun v => v._id)

/-- Embeds `ChannelDeletionService.getChannelStats`: the five pre-deletion
counts queried from the current collections. -/
def getChannelStats (db : DB) (userId : MongoId) : Stats :=
  { subscriberCount :=
      db.subscriptions.countP
        (fun s => decide (s.channel = userId ∧ s.status = "active"))
    videoCount :=
      db.videos.countP (fun v => decide (v.owner = some userId ∧ v.isPublished = true))
    totalViews :=
      ((db.videos.filter (fun v => decide (v.owner = some userId))).map
        (fun v => v.views)).sum
    totalLikes :=
      db.engagements.countP
        (fun e => decide (e.content ∈ ownedVideoIds db userId ∧
          e.contentType = "video" ∧ e.engagementType = "like"))
    totalComments :=
      db.comments.countP (fun c => decide (c.owner = some userId)) }

/-- Batch size constant from `handleSubscriptions`. -/
def batchSize : Nat := 10000

/-- Match predicate of the cancellation update:
`{ channel: userId, status: 'active' }`. -/
def subMatch (userId : MongoId) (s : Subscription) : Bool :=
  decide (s.channel = userId ∧ s.status = "active")

/-- One `Subscription.updateMany({channel, status:'active'}, {status:'cancelled'},
{ session, limit: batchSize })` call.  MongoDB's `updateMany` has no `limit`
option, so the option is ignored and every matching document is updated;
`modifiedCount` is the number of matched (hence changed) documents. -/
def cancelActiveSubs (db : DB) (userId : MongoId) : Nat × DB :=
  (db.subscriptions.countP (subMatch userId),
   { db with subscriptions := (db.subscriptions.map
      (fun s => if subMatch userId s then { s with status := "cancelled" } else s)) })

/-- The `while (true)` loop of `handleSubscriptions`, with explicit fuel; it
returns the list of per-round `modifiedCount` values together with the final
state.  The loop stops as soon as a round modifies fewer than `batchSize`
documents. -/
def cancelLoop : Nat → DB → MongoId → List Nat × DB
  | 0, db, _ => ([], db)
  | fuel + 1, db, userId =>
    let r := cancelActiveSubs db userId
    if r.1 < batchSize then ([r.1], r.2)
    else
      let rest := cancelLoop fuel r.2 userId
      (r.1 :: rest.1, rest.2)

/-- Embeds `ChannelDeletionService.updateAffectedSubscriberCounts`: for every
user who ever subscribed to the deleted channel, recount their remaining
active subscriptions and persist the count in `User.subscriberCount`. -/
def updateAffectedSubscriberCounts (db : DB) (deletedUserId : MongoId) : DB :=
  let subscribers :=
    ((db.subscriptions.filter (fun s => decide (s.channel = deletedUserId))).map
      (fun s => s.subscriber)).dedup
  subscribers.foldl
    (fun acc sid =>
      let active := acc.subscriptions.countP
        (fun s => decide (s.subscriber = sid ∧ s.status = "active"))
      { acc with users := (acc.users.map
          (fun u => if u._id = sid then { u with subscriberCount := active } else u)) })
    db

/-- Embeds `ChannelDeletionService.handleSubscriptions`, also exposing the
per-round `modifiedCount` trace of the cancellation loop.  The fuel
`length + 1` always suffices: the first round already cancels every matching
edge, so the second round (when reached) modifies zero documents. -/
def handleSubscriptionsTrace (db : DB) (userId : MongoId) : List Nat × DB :=
  let r := cancelLoop (db.subscriptions.length + 1) db userId
  (r.1, updateAffectedSubscriberCounts r.2 userId)

/-- State effect of `handleSubscriptions`. -/
def handleSubscriptions (db : DB) (userId : MongoId) : DB :=
  (handleSubscriptionsTrace db userId).2

/-- Embeds `ChannelDeletionService.handleVideos`.  Note that in the source the
marker string (`'[Deleted Channel] ' + mongoose.Types.ObjectId().toString()`)
is evaluated once, before the update is issued, so every matched document
receives the same generated marker. -/
def handleVideos (db : DB) (userId : MongoId) (retentionPolicy : String) : DB :=
  if retentionPolicy = "deleted" then
    { db with videos := db.videos.filter (fun v => !decide (v.owner = some userId)) }
  else if retentionPolicy = "archived" then
    let marker := "[Deleted Channel] " ++ toString db.nextId
    { db with
      nextId := db.nextId + 1
      videos := db.videos.map (fun v =>
        if v.owner = some userId then
          { v with isPublished := false, owner := none, title := marker }
        else v) }
  else if retentionPolicy = "anonymized" then
    let marker := "[Anonymous] " ++ toString db.nextId
    { db with
      nextId := db.nextId + 1
      videos := db.videos.map (fun v =>
        if v.owner = some userId then { v with owner := none, title := marker }
        else v) }
  else db

/-- Embeds `ChannelDeletionService.handleComments`. -/
def handleComments (db : DB) (userId : MongoId) (retentionPolicy : String) : DB :=
  if retentionPolicy = "deleted" then
    { db with comments := db.comments.filter (fun c => !decide (c.owner = some userId)) }
  else if retentionPolicy = "anonymized" then
    { db with comments := db.comments.map (fun c =>
        if c.owner = some userId then
          { c with owner := none, content := "[Comment deleted]" }
        else c) }
  else if retentionPolicy = "archived" then
    { db with comments := db.comments.map (fun c =>
        if c.owner = some userId then { c with owner := none } else c) }
  else db

/-- Embeds `ChannelDeletionService.handleEngagements`.  The owned-content id
set is read from the *current* state, i.e. after the earlier retention steps
have already run. -/
def handleEngagements (db : DB) (userId : MongoId) : DB :=
  let userContent := ownedVideoIds db userId
  let db1 :=
    if userContent.length > 0 then
      { db with engagements := db.engagements.filter (fun e =>
          !decide (e.content ∈ userContent ∧ e.contentType = "video")) }
    else db
  { db1 with engagements := db1.engagements.filter (fun e => !decide (e.user = userId)) }

/-- Match of `{ video: { $in: ids } }` against a loosely-typed `video` field. -/
def videoIn (ids : List MongoId) : MVal → Bool
  | .oid i => decide (i ∈ ids)
  | _ => false

/-- Embeds `ChannelDeletionService.handleWatchHistory`.  The update documents
are plain (non-pipeline) documents, so `'$video'` is stored as a literal
string. -/
def handleWatchHistory (now : Time) (db : DB) (userId : MongoId)
    (watchHistoryRetention : String) : DB :=
  let userVideos := ownedVideoIds db userId
  if watchHistoryRetention = "deleted" then
    let db1 := { db with watchHistory :=
      db.watchHistory.filter (fun w => !decide (w.user = MVal.oid userId)) }
    if userVideos.length > 0 then
      { db1 with watchHistory :=
        db1.watchHistory.filter (fun w => !videoIn userVideos w.video) }
    else db1
  else if watchHistoryRetention = "anonymized" then
    let db1 := { db with watchHistory := db.watchHistory.map (fun w =>
      if w.user = MVal.oid userId then
        { w with user := MVal.null, sessionId := none, device := "unknown" }
      else w) }
    if userVideos.length > 0 then
      { db1 with watchHistory := db1.watchHistory.map (fun w =>
          if videoIn userVideos w.video then
            { w with video := MVal.null,
                     metadata := { deletedChannel := some true,
                                   originalVideoId := some (MVal.str "$video") } }
          else w) }
    else db1
  else if watchHistoryRetention = "archived" then
    let db1 := { db with watchHistory := db.watchHistory.map (fun w =>
      if w.user = MVal.oid userId then
        { w with archived := true, archivedAt := some now,
                 archivedReason := some "channel_deleted" }
      else w) }
    if userVideos.length > 0 then
      { db1 with watchHistory := db1.watchHistory.map (fun w =>
          if videoIn userVideos w.video then
            { w with archived := true, archivedAt := some now,
                     archivedReason := some "channel_deleted",
                     originalVideoId := some (MVal.str "$video") }
          else w) }
    else db1
  else db

/-- Embeds `ChannelDeletionService.handlePlaylists`: hard delete. -/
def handlePlaylists (db : DB) (userId : MongoId) : DB :=
  { db with playlists := db.playlists.filter (fun p => !decide (p.owner = userId)) }

/-- Embeds `ChannelDeletionService.handleTweets`: hard delete. -/
def handleTweets (db : DB) (userId : MongoId) : DB :=
  { db with tweets := db.tweets.filter (fun t => !decide (t.owner = userId)) }

/-- `User.findByIdAndDelete(userId)`; `_id` is unique, so removing every
match removes the one matching document. -/
def deleteUserById (db : DB) (userId : MongoId) : DB :=
  { db with users := db.users.filter (fun u => !decide (u._id = userId)) }

/-- Resolution of the tombstone's `dataRetention` map:
`options.dataRetention || { videos:'archived', comments:'anonymized',
analytics:'archived' }`, with the mongoose per-field schema defaults filling
any field missing from a supplied object. -/
def resolveRetention : Option RetentionOptions → Retention
  | Option.none => { videos := "archived", comments := "anonymized", analytics := "archived" }
  | some r =>
    { videos := r.videos.getD "archived"
      comments := r.comments.getD "anonymized"
      analytics := r.analytics.getD "archived" }

/-- Schema-level enum validation of a resolved retention map. -/
def validRetention (r : Retention) : Bool :=
  decide (r.videos ∈ retentionValues ∧ r.comments ∈ retentionValues ∧
    r.analytics ∈ retentionValues)

/-- `DeletedChannel.create([...], { session })`: mongoose validates the
`deletionReason` and `dataRetention` enums, MongoDB enforces the unique index
on `originalUserId`, and on success the tombstone is appended with a fresh
`_id` and a `recoveryDeadline` 30 days out. -/
def createDeletedChannel (now : Time) (db : DB) (user : User) (stats : Stats)
    (reason : String) (deletedBy : Option MongoId) (retention : Retention) :
    Except JsError (MongoId × DB) :=
  if !decide (reason ∈ deletionReasons) then
    .error (.validation "DeletedChannel validation failed: deletionReason")
  else if !validRetention retention then
    .error (.validation "DeletedChannel validation failed: dataRetention")
  else if db.deletedChannels.any (fun t => decide (t.originalUserId = user._id)) then
    .error (.duplicateKey "E11000 duplicate key error: originalUserId")
  else
    let tid := db.nextId
    .ok (tid,
      { db with
        nextId := tid + 1
        deletedChannels := db.deletedChannels ++
          [{ _id := tid
             originalUserId := user._id
             username := user.username
             fullName := user.fullName
             email := user.email
             stats := stats
             deletionReason := reason
             deletedAt := now
             deletedBy := deletedBy
             recoveryDeadline := now + recoveryGraceMs
             isRecoverable := true
             dataRetention := retention }] })

/-- Steps 4-11 of the `deleteChannel` transaction body, in source order:
subscriptions, videos, comments, engagements, watch history, playlists,
tweets, and finally the deletion of the user record. -/
def retentionSteps (now : Time) (userId : MongoId) (opts : DeletionOptions) :
    List (DB → DB) :=
  [ fun db => handleSubscriptions db userId,
    fun db => handleVideos db userId ((opts.dataRetention.bind (fun r => r.videos)).getD "archived"),
    fun db => handleComments db userId ((opts.dataRetention.bind (fun r => r.comments)).getD "anonymized"),
    fun db => handleEngagements db userId,
    fun db => handleWatchHistory now db userId (opts.watchHistoryRetention.getD "anonymized"),
    fun db => handlePlaylists db userId,
    fun db => handleTweets db userId,
    fun db => deleteUserById db userId ]

/-- Body of the `session.withTransaction` callback in `deleteChannel`:
load the user (404 if absent), compute the stats snapshot, create the
tombstone, then run the retention steps in order. -/
def deleteChannelTx (now : Time) (userId : MongoId) (reason : String)
    (deletedBy : Option MongoId) (opts : DeletionOptions) (db : DB) :
    Except JsError DB :=
  match db.users.find? (fun u => decide (u._id = userId)) with
  | Option.none => .error (.api 404 "User not found")
  | some user =>
    match createDeletedChannel now db user (getChannelStats db userId) reason
        deletedBy (resolveRetention opts.dataRetention) with
    | .error e => .error e
    | .ok r => .ok ((retentionSteps now userId opts).foldl (fun a f => f a) r.2)

/-- Variant of the transaction body in which an error is raised after the
first `failAt` retention steps have executed (failure injection at any step
after the tombstone is created).  The mutated intermediate state is discarded
exactly as a thrown exception discards it in the source. -/
def deleteChannelTxFault (failAt : Nat) (err : JsError) (now : Time)
    (userId : MongoId) (reason : String) (deletedBy : Option MongoId)
    (opts : DeletionOptions) (db : DB) : Except JsError DB :=
  match db.users.find? (fun u => decide (u._id = userId)) with
  | Option.none => .error (.api 404 "User not found")
  | some user =>
    match createDeletedChannel now db user (getChannelStats db userId) reason
        deletedBy (resolveRetention opts.dataRetention) with
    | .error e => .error e
    | .ok r =>
      let _discardedState :=
        ((retentionSteps now userId opts).take failAt).foldl (fun a f => f a) r.2
      .error err

/-- `session.withTransaction(body)`: on success the committed state is the
body's final state; a thrown error aborts the transaction and the caller
keeps the pre-call state.  Every write issued inside the body passes the
session, so no mutation survives an abort. -/
def withTransaction (body : DB → Except JsError DB) (db : DB) :
    Except JsError Unit × DB :=
  match body db with
  | .ok db1 => (.ok (), db1)
  | .error e => (.error e, db)

/-- The object literal returned by a successful `deleteChannel`. -/
def deleteChannelResult : JsObject :=
  [("success", .bool true), ("message", .str "Channel deleted successfully")]

/-- Embeds `ChannelDeletionService.deleteChannel`: run the transaction; on
success return `{ success: true, message: ... }`; on any error rewrap it as
`ApiError(500, 'Channel deletion failed: ' + error.message)` and leave the
database in its pre-call state. -/
def deleteChannel (now : Time) (userId : MongoId) (reason : String)
    (deletedBy : Option MongoId) (opts : DeletionOptions) (db : DB) :
    Except JsError JsObject × DB :=
  match withTransaction (deleteChannelTx now userId reason deletedBy opts) db with
  | (.ok _, db1) => (.ok deleteChannelResult, db1)
  | (.error e, db0) =>
    (.error (.api 500 ("Channel deletion failed: " ++ e.message)), db0)

/-- `deleteChannel` with a failure injected after `failAt` retention steps. -/
def deleteChannelFault (failAt : Nat) (err : JsError) (now : Time)
    (userId : MongoId) (reason : String) (deletedBy : Option MongoId)
    (opts : DeletionOptions) (db : DB) : Except JsError JsObject × DB :=
  match withTransaction
      (deleteChannelTxFault failAt err now userId reason deletedBy opts) db with
  | (.ok _, db1) => (.ok deleteChannelResult, db1)
  | (.error e, db0) =>
    (.error (.api 500 ("Channel deletion failed: " ++ e.message)), db0)

/-- `User.create([...], { session })` in `recoverChannel`.  Mongoose first
runs schema validation on the document: every User schema variant in the
repository marks `password` as required (`user.model.js`, and the
counters variant), so a document without one is rejected before any insert.
Only then does MongoDB enforce the unique indexes: `_id` (always unique) and
the schema's unique `username` and `email`. -/
def createUser (db : DB) (u : User) : Except JsError DB :=
  if u.password.isNone then
    .error (.validation
      "User validation failed: password: Path `password` is required.")
  else if db.users.any (fun v => decide (v._id = u._id)) then
    .error (.duplicateKey "E11000 duplicate key error: _id")
  else if db.users.any (fun v => decide (v.username = u.username)) then
    .error (.duplicateKey "E11000 duplicate key error: username")
  else if db.users.any (fun v => decide (v.email = u.email)) then
    .error (.duplicateKey "E11000 duplicate key error: email")
  else .ok { db with users := db.users ++ [u] }

/-- Body of the `session.withTransaction` callback in `recoverChannel`. -/
def recoverChannelTx (now : Time) (deletedChannelId : MongoId)
    (newUserId : MongoId) (db : DB) : Except JsError DB :=
  match db.deletedChannels.find? (fun t => decide (t._id = deletedChannelId)) with
  | Option.none => .error (.api 404 "Deleted channel not found")
  | some dc =>
    if dc.isRecoverable = false then
      .error (.api 400 "Channel recovery period has expired")
    else if now > dc.recoveryDeadline then
      .error (.api 400 "Channel recovery deadline has passed")
    else
      match createUser db
          { _id := newUserId
            username := dc.username
            fullName := dc.fullName
            email := dc.email
            avatar := "https://via.placeholder.com/150"
            coverImage := ""
            subscriberCount := 0
            videoCount := 0
            totalViews := 0
            password := Option.none } with
      | .error e => .error e
      | .ok db1 =>
        .ok { db1 with deletedChannels := db1.deletedChannels.map (fun t =>
          if t._id = deletedChannelId then { t with isRecoverable := false } else t) }

/-- The object literal returned by a successful `recoverChannel`. -/
def recoverChannelResult : JsObject :=
  [("success", .bool true), ("message", .str "Channel recovered successfully")]

/-- Embeds `ChannelDeletionService.recoverChannel`: run the transaction; on
any error rewrap it as `ApiError(500, 'Channel recovery failed: ' +
error.message)` and leave the database untouched. -/
def recoverChannel (now : Time) (deletedChannelId : MongoId)
    (newUserId : MongoId) (db : DB) : Except JsError JsObject × DB :=
  match withTransaction (recoverChannelTx now deletedChannelId newUserId) db with
  | (.ok _, db1) => (.ok recoverChannelResult, db1)
  | (.error e, db0) =>
    (.error (.api 500 ("Channel recovery failed: " ++ e.message)), db0)

end ChannelDeletionService

namespace WatchHistoryManagementService

/-- Filter of the restore update:
`{ 'metadata.originalVideoId': { $exists: true }, archived: true,
archivedReason: 'channel_deleted' }`. -/
def restoreMatch (w : WatchHistoryDoc) : Bool :=
  w.metadata.originalVideoId.isSome && w.archived &&
    decide (w.archivedReason = some "channel_deleted")

/-- Embeds `WatchHistoryManagementService.restoreWatchHistoryForChannel`.
The filter does not mention `deletedChannelId`; the update document is a
plain `$set`/`$unset` document, so `'$metadata.originalVideoId'` is stored in
`video` as a literal string. -/
def restoreWatchHistoryForChannel (db : DB) (deletedChannelId : MongoId)
    (newUserId : MongoId) : DB :=
  { db with watchHistory := db.watchHistory.map (fun w =>
      if restoreMatch w then
        { w with
            user := MVal.oid newUserId
            archived := false
            archivedAt := none
            archivedReason := none
            video := MVal.str "$metadata.originalVideoId"
            metadata := { deletedChannel := some false, originalVideoId := none } }
      else w) }

end WatchHistoryManagementService

/-! Concrete database states used to instantiate and to refute claims. -/

/-- The empty database. -/
def dbEmpty : DB := ⟨[], [], [], [], [], [], [], [], [], 0⟩

/-- A channel owner about to be deleted. -/
def sampleUser : User :=
  ⟨1, "alice", "Alice", "alice@example.com", "av", "", 0, 0, 0, some "hash1"⟩

/-- A published video owned by the sample channel. -/
def sampleVideo : Video := ⟨10, some 1, "my video", 100, true⟩

/-- User 2's active subscription to the sample channel. -/
def sampleSub : Subscription := ⟨2, 1, "active"⟩

/-- User 2's like on the sample channel's video. -/
def likeByOther : Engagement := ⟨2, 10, "video", "like"⟩

/-- The sample channel's own like on somebody else's content. -/
def likeByOwner : Engagement := ⟨1, 77, "video", "like"⟩

/-- A comment owned by the sample channel. -/
def sampleComment : Comment := ⟨20, some 1, "original text"⟩

/-- User 2's watch-history record for the sample channel's video. -/
def sampleWatch : WatchHistoryDoc :=
  ⟨MVal.oid 2, MVal.oid 10, some "s", "mobile", false, none, none, none, ⟨none, none⟩⟩

/-- A database holding the sample channel and its related documents. -/
def dbSample : DB :=
  ⟨[sampleUser], [sampleVideo], [sampleSub], [likeByOther, likeByOwner],
   [sampleComment], [], [], [sampleWatch], [], 1000⟩

/-- `n` distinct active subscriptions to channel 1. -/
def mkSubs (n : Nat) : List Subscription :=
  (List.range n).map (fun i => ⟨1000 + i, 1, "active"⟩)

/-- A database holding channel 1 and the given subscription edges. -/
def dbWithSubs (l : List Subscription) : DB :=
  ⟨[⟨1, "big", "Big Channel", "big@example.com", "av", "", 0, 0, 0, some "hash2"⟩], [],
   l, [], [], [], [], [], [], 0⟩

/-- A channel with 10001 active subscribers, one more than the batch size. -/
def dbManySubs : DB := dbWithSubs (mkSubs 10001)

/-- A tombstone whose recovery has already been consumed. -/
def tombUsed : DeletedChannelDoc :=
  ⟨5, 9, "bob", "Bob", "bob@example.com", ⟨0, 0, 0, 0, 0⟩, "user_request", 0,
   none, 999999, false, ⟨"archived", "anonymized", "archived"⟩⟩

/-- A database holding only the consumed tombstone. -/
def dbUsedTomb : DB := ⟨[], [], [], [], [], [], [], [], [tombUsed], 100⟩

/-- A live, recoverable tombstone within its grace period. -/
def tombLive : DeletedChannelDoc :=
  ⟨6, 9, "bob", "Bob", "bob@example.com", ⟨1, 2, 3, 4, 5⟩, "user_request", 0,
   none, 1000000, true, ⟨"archived", "anonymized", "archived"⟩⟩

/-- A database holding only the live tombstone. -/
def dbLiveTomb : DB := ⟨[], [], [], [], [], [], [], [], [tombLive], 100⟩

/-- A watch-history record in exactly the shape the claim's premise
describes: archived by a channel deletion with the original video id stored
under `metadata.originalVideoId`. -/
def whClaimShape : WatchHistoryDoc :=
  ⟨MVal.null, MVal.null, none, "unknown", true, some 3, some "channel_deleted",
   none, ⟨some true, some (MVal.oid 10)⟩⟩

/-- A database holding only that archived watch-history record. -/
def dbClaimShape : DB := ⟨[], [], [], [], [], [], [], [whClaimShape], [], 0⟩

/-! Frame lemmas: each retention step only rewrites its own collections. -/

namespace ChannelDeletionService

theorem cancelLoop_shape (fuel : Nat) :
    ∀ (db : DB) (uid : MongoId),
      ∃ subs, (cancelLoop fuel db uid).2 = { db with subscriptions := subs } := by
  induction fuel with
  | zero => intro db uid; exact ⟨db.subscriptions, rfl⟩
  | succ n ih =>
    intro db uid
    simp only [cancelLoop]
    split
    · exact ⟨_, rfl⟩
    · obtain ⟨subs, h⟩ := ih (cancelActiveSubs db uid).2 uid
      exact ⟨subs, h⟩

theorem foldl_users_shape (step : DB → MongoId → DB)
    (hstep : ∀ acc sid, ∃ us, step acc sid = { acc with users := us }) :
    ∀ (l : List MongoId) (db : DB),
      ∃ us, l.foldl step db = { db with users := us } := by
  intro l
  induction l with
  | nil => intro db; exact ⟨db.users, rfl⟩
  | cons a t ih =>
    intro db
    obtain ⟨us1, h1⟩ := hstep db a
    obtain ⟨us2, h2⟩ := ih (step db a)
    refine ⟨us2, ?_⟩
    rw [List.foldl_cons, h2, h1]

theorem updateAffectedSubscriberCounts_shape (db : DB) (uid : MongoId) :
    ∃ us, updateAffectedSubscriberCounts db uid = { db with users := us } := by
  unfold updateAffectedSubscriberCounts
  exact foldl_users_shape _ (fun acc sid => ⟨_, rfl⟩) _ db

theorem handleSubscriptions_shape (db : DB) (uid : MongoId) :
    ∃ subs us, handleSubscriptions db uid =
      { db with subscriptions := subs, users := us } := by
  unfold handleSubscriptions handleSubscriptionsTrace
  obtain ⟨subs, h1⟩ := cancelLoop_shape (db.subscriptions.length + 1) db uid
  obtain ⟨us, h2⟩ := updateAffectedSubscriberCounts_shape
    (cancelLoop (db.subscriptions.length + 1) db uid).2 uid
  refine ⟨subs, us, ?_⟩
  dsimp only
  rw [h2, h1]

theorem handleVideos_shape (db : DB) (uid : MongoId) (p : String) :
    ∃ vids n, handleVideos db uid p = { db with videos := vids, nextId := n } := by
  unfold handleVideos
  split
  · exact ⟨_, db.nextId, rfl⟩
  · split
    · exact ⟨_, _, rfl⟩
    · split
      · exact ⟨_, _, rfl⟩
      · exact ⟨db.videos, db.nextId, rfl⟩

theorem handleComments_shape (db : DB) (uid : MongoId) (p : String) :
    ∃ cs, handleComments db uid p = { db with comments := cs } := by
  unfold handleComments
  split
  · exact ⟨_, rfl⟩
  · split
    · exact ⟨_, rfl⟩
    · split
      · exact ⟨_, rfl⟩
      · exact ⟨db.comments, rfl⟩

theorem handleEngagements_shape (db : DB) (uid : MongoId) :
    ∃ es, handleEngagements db uid = { db with engagements := es } := by
  unfold handleEngagements
  dsimp only
  by_cases h : (ownedVideoIds db uid).length > 0
  · simp only [if_pos h]; exact ⟨_, rfl⟩
  · simp only [if_neg h]; exact ⟨_, rfl⟩

theorem handleWatchHistory_shape (now : Time) (db : DB) (uid : MongoId)
    (p : String) :
    ∃ ws, handleWatchHistory now db uid p = { db with watchHistory := ws } := by
  unfold handleWatchHistory
  dsimp only
  by_cases h : (ownedVideoIds db uid).length > 0
  · simp only [if_pos h]
    split
    · exact ⟨_, rfl⟩
    · split
      · exact ⟨_, rfl⟩
      · split
        · exact ⟨_, rfl⟩
        · exact ⟨db.watchHistory, rfl⟩
  · simp only [if_neg h]
    split
    · exact ⟨_, rfl⟩
    · split
      · exact ⟨_, rfl⟩
      · split
        · exact ⟨_, rfl⟩
        · exact ⟨db.watchHistory, rfl⟩

theorem handlePlaylists_shape (db : DB) (uid : MongoId) :
    ∃ ps, handlePlaylists db uid = { db with playlists := ps } :=
  ⟨_, rfl⟩

theorem handleTweets_shape (db : DB) (uid : MongoId) :
    ∃ ts, handleTweets db uid = { db with tweets := ts } :=
  ⟨_, rfl⟩

theorem deleteUserById_shape (db : DB) (uid : MongoId) :
    ∃ us, deleteUserById db uid = { db with users := us } :=
  ⟨_, rfl⟩

theorem handleSubscriptions_deletedChannels (db : DB) (uid : MongoId) :
    (handleSubscriptions db uid).deletedChannels = db.deletedChannels := by
  obtain ⟨s, u, h⟩ := handleSubscriptions_shape db uid; rw [h]

theorem handleVideos_deletedChannels (db : DB) (uid : MongoId) (p : String) :
    (handleVideos db uid p).deletedChannels = db.deletedChannels := by
  obtain ⟨v, n, h⟩ := handleVideos_shape db uid p; rw [h]

theorem handleComments_deletedChannels (db : DB) (uid : MongoId) (p : String) :
    (handleComments db uid p).deletedChannels = db.deletedChannels := by
  obtain ⟨c, h⟩ := handleComments_shape db uid p; rw [h]

theorem handleEngagements_deletedChannels (db : DB) (uid : MongoId) :
    (handleEngagements db uid).deletedChannels = db.deletedChannels := by
  obtain ⟨e, h⟩ := handleEngagements_shape db uid; rw [h]

theorem handleWatchHistory_deletedChannels (now : Time) (db : DB)
    (uid : MongoId) (p : String) :
    (handleWatchHistory now db uid p).deletedChannels = db.deletedChannels := by
  obtain ⟨w, h⟩ := handleWatchHistory_shape now db uid p; rw [h]

theorem handlePlaylists_deletedChannels (db : DB) (uid : MongoId) :
    (handlePlaylists db uid).deletedChannels = db.deletedChannels := rfl

theorem handleTweets_deletedChannels (db : DB) (uid : MongoId) :
    (handleTweets db uid).deletedChannels = db.deletedChannels := rfl

theorem deleteUserById_deletedChannels (db : DB) (uid : MongoId) :
    (deleteUserById db uid).deletedChannels = db.deletedChannels := rfl

theorem handleSubscriptions_videos (db : DB) (uid : MongoId) :
    (handleSubscriptions db uid).videos = db.videos := by
  obtain ⟨s, u, h⟩ := handleSubscriptions_shape db uid; rw [h]

theorem handleComments_videos (db : DB) (uid : MongoId) (p : String) :
    (handleComments db uid p).videos = db.videos := by
  obtain ⟨c, h⟩ := handleComments_shape db uid p; rw [h]

theorem handleEngagements_videos (db : DB) (uid : MongoId) :
    (handleEngagements db uid).videos = db.videos := by
  obtain ⟨e, h⟩ := handleEngagements_shape db uid; rw [h]

theorem handleWatchHistory_videos (now : Time) (db : DB) (uid : MongoId)
    (p : String) :
    (handleWatchHistory now db uid p).videos = db.videos := by
  obtain ⟨w, h⟩ := handleWatchHistory_shape now db uid p; rw [h]

theorem handlePlaylists_videos (db : DB) (uid : MongoId) :
    (handlePlaylists db uid).videos = db.videos := rfl

theorem handleTweets_videos (db : DB) (uid : MongoId) :
    (handleTweets db uid).videos = db.videos := rfl

theorem deleteUserById_videos (db : DB) (uid : MongoId) :
    (deleteUserById db uid).videos = db.videos := rfl

theorem handleSubscriptions_comments (db : DB) (uid : MongoId) :
    (handleSubscriptions db uid).comments = db.comments := by
  obtain ⟨s, u, h⟩ := handleSubscriptions_shape db uid; rw [h]

theorem handleVideos_comments (db : DB) (uid : MongoId) (p : String) :
    (handleVideos db uid p).comments = db.comments := by
  obtain ⟨v, n, h⟩ := handleVideos_shape db uid p; rw [h]

theorem handleEngagements_comments (db : DB) (uid : MongoId) :
    (handleEngagements db uid).comments = db.comments := by
  obtain ⟨e, h⟩ := handleEngagements_shape db uid; rw [h]

theorem handleWatchHistory_comments (now : Time) (db : DB) (uid : MongoId)
    (p : String) :
    (handleWatchHistory now db uid p).comments = db.comments := by
  obtain ⟨w, h⟩ := handleWatchHistory_shape now db uid p; rw [h]

theorem handlePlaylists_comments (db : DB) (uid : MongoId) :
    (handlePlaylists db uid).comments = db.comments := rfl

theorem handleTweets_comments (db : DB) (uid : MongoId) :
    (handleTweets db uid).comments = db.comments := rfl

theorem deleteUserById_comments (db : DB) (uid : MongoId) :
    (deleteUserById db uid).comments = db.comments := rfl

theorem retentionSteps_foldl (now : Time) (uid : MongoId)
    (opts : DeletionOptions) (db : DB) :
    (retentionSteps now uid opts).foldl (fun a f => f a) db =
      deleteUserById (handleTweets (handlePlaylists (handleWatchHistory now
        (handleEngagements (handleComments (handleVideos
          (handleSubscriptions db uid) uid
          ((opts.dataRetention.bind (fun r => r.videos)).getD "archived")) uid
          ((opts.dataRetention.bind (fun r => r.comments)).getD "anonymized"))
          uid) uid (opts.watchHistoryRetention.getD "anonymized")) uid) uid)
        uid := by
  simp only [retentionSteps, List.foldl]

theorem retention_deletedChannels (now : Time) (uid : MongoId)
    (opts : DeletionOptions) (db : DB) :
    ((retentionSteps now uid opts).foldl (fun a f => f a) db).deletedChannels =
      db.deletedChannels := by
  rw [retentionSteps_foldl, deleteUserById_deletedChannels,
    handleTweets_deletedChannels, handlePlaylists_deletedChannels,
    handleWatchHistory_deletedChannels, handleEngagements_deletedChannels,
    handleComments_deletedChannels, handleVideos_deletedChannels,
    handleSubscriptions_deletedChannels]

theorem retention_videos (now : Time) (uid : MongoId) (opts : DeletionOptions)
    (db : DB) :
    ((retentionSteps now uid opts).foldl (fun a f => f a) db).videos =
      (handleVideos (handleSubscriptions db uid) uid
        ((opts.dataRetention.bind (fun r => r.videos)).getD "archived")).videos := by
  rw [retentionSteps_foldl, deleteUserById_videos, handleTweets_videos,
    handlePlaylists_videos, handleWatchHistory_videos, handleEngagements_videos,
    handleComments_videos]

theorem retention_comments (now : Time) (uid : MongoId)
    (opts : DeletionOptions) (db : DB) :
    ((retentionSteps now uid opts).foldl (fun a f => f a) db).comments =
      (handleComments (handleVideos (handleSubscriptions db uid) uid
        ((opts.dataRetention.bind (fun r => r.videos)).getD "archived")) uid
        ((opts.dataRetention.bind (fun r => r.comments)).getD "anonymized")).comments := by
  rw [retentionSteps_foldl, deleteUserById_comments, handleTweets_comments,
    handlePlaylists_comments, handleWatchHistory_comments,
    handleEngagements_comments]

theorem handleVideos_deleted (db : DB) (uid : MongoId) :
    (handleVideos db uid "deleted").videos =
      db.videos.filter (fun v => !decide (v.owner = some uid)) := by
  simp [handleVideos]

theorem handleVideos_archived (db : DB) (uid : MongoId) :
    (handleVideos db uid "archived").videos =
      db.videos.map (fun v =>
        if v.owner = some uid then
          { v with owner := none, isPublished := false,
                   title := "[Deleted Channel] " ++ toString db.nextId }
        else v) := by
  simp [handleVideos]

theorem handleVideos_anonymized (db : DB) (uid : MongoId) :
    (handleVideos db uid "anonymized").videos =
      db.videos.map (fun v =>
        if v.owner = some uid then
          { v with owner := none, title := "[Anonymous] " ++ toString db.nextId }
        else v) := by
  simp [handleVideos]

theorem handleComments_deleted (db : DB) (uid : MongoId) :
    (handleComments db uid "deleted").comments =
      db.comments.filter (fun c => !decide (c.owner = some uid)) := by
  simp [handleComments]

theorem handleComments_anonymized (db : DB) (uid : MongoId) :
    (handleComments db uid "anonymized").comments =
      db.comments.map (fun c =>
        if c.owner = some uid then
          { c with owner := none, content := "[Comment deleted]" }
        else c) := by
  simp [handleComments]

theorem handleComments_archived (db : DB) (uid : MongoId) :
    (handleComments db uid "archived").comments =
      db.comments.map (fun c =>
        if c.owner = some uid then { c with owner := none } else c) := by
  simp [handleComments]

theorem subMatch_cancelled (uid : MongoId) (l : List Subscription) :
    (l.map (fun s =>
      if subMatch uid s then { s with status := "cancelled" } else s)).countP
        (subMatch uid) = 0 := by
  rw [List.countP_eq_zero]
  intro s hs
  obtain ⟨t, _, rfl⟩ := List.mem_map.mp hs
  by_cases h : subMatch uid t = true
  · rw [if_pos h]
    simp [subMatch]
  · rw [if_neg h]
    simpa using h

theorem cancelLoop_unbounded (f : Nat) (db : DB) (uid : MongoId)
    (h : batchSize ≤ db.subscriptions.countP (subMatch uid)) :
    (cancelLoop (f + 2) db uid).1 =
      [db.subscriptions.countP (subMatch uid), 0] := by
  have h0 : ¬ (db.subscriptions.countP (subMatch uid) < batchSize) :=
    not_lt.mpr h
  have h1 : (0 : Nat) < batchSize := by norm_num [batchSize]
  simp only [cancelLoop, cancelActiveSubs]
  rw [if_neg h0]
  simp only [cancelLoop, cancelActiveSubs]
  rw [subMatch_cancelled, if_pos h1]

theorem countP_mkSubs (n : Nat) :
    (mkSubs n).countP (subMatch 1) = n := by
  induction n with
  | zero => rfl
  | succ m ih =>
    rw [mkSubs, List.range_succ, List.map_append, List.countP_append]
    rw [mkSubs] at ih
    rw [ih]
    simp [subMatch]

theorem deleteChannel_tx_ok {now : Time} {uid : MongoId} {reason : String}
    {delBy : Option MongoId} {opts : DeletionOptions} {db db1 : DB}
    (h : deleteChannelTx now uid reason delBy opts db = .ok db1) :
    deleteChannel now uid reason delBy opts db = (.ok deleteChannelResult, db1) := by
  unfold deleteChannel withTransaction
  rw [h]

theorem deleteChannel_tx_error {now : Time} {uid : MongoId} {reason : String}
    {delBy : Option MongoId} {opts : DeletionOptions} {db : DB} {e : JsError}
    (h : deleteChannelTx now uid reason delBy opts db = .error e) :
    deleteChannel now uid reason delBy opts db =
      (.error (.api 500 ("Channel deletion failed: " ++ e.message)), db) := by
  unfold deleteChannel withTransaction
  rw [h]

theorem deleteChannelTx_ok_elim {now : Time} {uid : MongoId} {reason : String}
    {delBy : Option MongoId} {opts : DeletionOptions} {db db1 : DB}
    (h : deleteChannelTx now uid reason delBy opts db = .ok db1) :
    ∃ user r, db.users.find? (fun u => decide (u._id = uid)) = some user ∧
      createDeletedChannel now db user (getChannelStats db uid) reason delBy
        (resolveRetention opts.dataRetention) = .ok r ∧
      db1 = (retentionSteps now uid opts).foldl (fun a f => f a) r.2 := by
  unfold deleteChannelTx at h
  cases hf : db.users.find? (fun u => decide (u._id = uid)) with
  | none =>
    rw [hf] at h
    exact Except.noConfusion h
  | some user =>
    rw [hf] at h
    dsimp only at h
    cases hc : createDeletedChannel now db user (getChannelStats db uid) reason
        delBy (resolveRetention opts.dataRetention) with
    | error e =>
      rw [hc] at h
      exact Except.noConfusion h
    | ok r =>
      rw [hc] at h
      exact ⟨user, r, rfl, hc, (Except.ok.inj h).symm⟩

theorem createDeletedChannel_ok_elim {now : Time} {db : DB} {user : User}
    {stats : Stats} {reason : String} {delBy : Option MongoId}
    {ret : Retention} {r : MongoId × DB}
    (h : createDeletedChannel now db user stats reason delBy ret = .ok r) :
    r = (db.nextId,
      { db with
        nextId := db.nextId + 1
        deletedChannels := db.deletedChannels ++
          [⟨db.nextId, user._id, user.username, user.fullName, user.email,
            stats, reason, now, delBy, now + recoveryGraceMs, true, ret⟩] }) := by
  unfold createDeletedChannel at h
  split at h
  · simp at h
  · split at h
    · simp at h
    · split at h
      · simp at h
      · exact (Except.ok.inj h).symm

theorem deleteChannelTxFault_error (failAt : Nat) (err : JsError) (now : Time)
    (uid : MongoId) (reason : String) (delBy : Option MongoId)
    (opts : DeletionOptions) (db : DB) :
    ∃ e, deleteChannelTxFault failAt err now uid reason delBy opts db =
      .error e := by
  unfold deleteChannelTxFault
  split
  · exact ⟨_, rfl⟩
  · split
    · exact ⟨_, rfl⟩
    · exact ⟨_, rfl⟩

theorem recoverChannel_tx_ok {now : Time} {dcid newUid : MongoId} {db db1 : DB}
    (h : recoverChannelTx now dcid newUid db = .ok db1) :
    recoverChannel now dcid newUid db = (.ok recoverChannelResult, db1) := by
  unfold recoverChannel withTransaction
  rw [h]

theorem recoverChannel_tx_error {now : Time} {dcid newUid : MongoId} {db : DB}
    {e : JsError} (h : recoverChannelTx now dcid newUid db = .error e) :
    recoverChannel now dcid newUid db =
      (.error (.api 500 ("Channel recovery failed: " ++ e.message)), db) := by
  unfold recoverChannel withTransaction
  rw [h]

theorem recoverChannelTx_gate_error {now : Time} {dcid newUid : MongoId}
    {db : DB} {dc : DeletedChannelDoc}
    (hfind : db.deletedChannels.find? (fun t => decide (t._id = dcid)) = some dc)
    (hgate : dc.isRecoverable = false ∨ dc.recoveryDeadline < now) :
    ∃ msg, recoverChannelTx now dcid newUid db = .error (.api 400 msg) := by
  unfold recoverChannelTx
  rw [hfind]
  dsimp only
  by_cases hrec : dc.isRecoverable = false
  · rw [if_pos hrec]
    exact ⟨_, rfl⟩
  · rw [if_neg hrec]
    have hdl : dc.recoveryDeadline < now := by
      rcases hgate with h | h
      · exact absurd h hrec
      · exact h
    rw [if_pos hdl]
    exact ⟨_, rfl⟩

theorem recoverChannelTx_never_ok (now : Time) (dcid newUid : MongoId)
    (db : DB) : ∀ db1, recoverChannelTx now dcid newUid db ≠ .ok db1 := by
  intro db1 h
  unfold recoverChannelTx createUser at h
  cases hfind : db.deletedChannels.find? (fun t => decide (t._id = dcid)) with
  | none =>
    rw [hfind] at h
    exact Except.noConfusion h
  | some dc =>
    rw [hfind] at h
    dsimp only at h
    by_cases hrec : dc.isRecoverable = false
    · rw [if_pos hrec] at h
      exact Except.noConfusion h
    · rw [if_neg hrec] at h
      by_cases hdl : now > dc.recoveryDeadline
      · rw [if_pos hdl] at h
        exact Except.noConfusion h
      · rw [if_neg hdl] at h
        simp at h

theorem handleSubscriptionsTrace_unbounded (l : List Subscription)
    (h : batchSize ≤ l.countP (subMatch 1)) :
    (handleSubscriptionsTrace (dbWithSubs l) 1).1 =
      [l.countP (subMatch 1), 0] := by
  have hlen : 1 ≤ l.length :=
    le_trans (by norm_num [batchSize]) (le_trans h (List.countP_le_length _))
  have hfuel : (dbWithSubs l).subscriptions.length + 1 = (l.length - 1) + 2 := by
    show l.length + 1 = l.length - 1 + 2
    omega
  show (cancelLoop ((dbWithSubs l).subscriptions.length + 1)
    (dbWithSubs l) 1).1 = [l.countP (subMatch 1), 0]
  rw [hfuel]
  exact cancelLoop_unbounded (l.length - 1) (dbWithSubs l) 1 h

theorem find?_consume (l : List DeletedChannelDoc) (dcid : MongoId) :
    (l.map (fun t =>
      if t._id = dcid then { t with isRecoverable := false } else t)).find?
        (fun t => decide (t._id = dcid)) =
      (l.find? (fun t => decide (t._id = dcid))).map
        (fun t => { t with isRecoverable := false }) := by
  induction l with
  | nil => rfl
  | cons a t ih =>
    by_cases h : a._id = dcid
    · simp [List.find?_cons, h]
    · simp [List.find?_cons, h, ih]

end ChannelDeletionService

/-! Claim theorems. -/

open ChannelDeletionService WatchHistoryManagementService

/-- C1: for every `deleteChannel` call that raises an error at any step —
including a failure injected after any number of retention steps have run
past the tombstone creation — no mutation performed by that call is
observable afterward: the pre-call database is fully restored. -/
theorem C1_deletion_rollback (now : Time) (uid : MongoId) (reason : String)
    (delBy : Option MongoId) (opts : DeletionOptions) (db : DB) :
    (∀ e, (deleteChannel now uid reason delBy opts db).1 = .error e →
      (deleteChannel now uid reason delBy opts db).2 = db)
    ∧ ∀ failAt err,
        (∃ e, (deleteChannelFault failAt err now uid reason delBy opts db).1 =
          .error e)
        ∧ (deleteChannelFault failAt err now uid reason delBy opts db).2 = db := by
  constructor
  · intro e he
    cases htx : deleteChannelTx now uid reason delBy opts db with
    | ok db1 =>
      rw [deleteChannel_tx_ok htx] at he
      exact Except.noConfusion he
    | error e2 =>
      rw [deleteChannel_tx_error htx]
  · intro failAt err
    obtain ⟨e0, he0⟩ :=
      deleteChannelTxFault_error failAt err now uid reason delBy opts db
    unfold deleteChannelFault withTransaction
    rw [he0]
    exact ⟨⟨_, rfl⟩, rfl⟩

/-- Witness for C1 at a concrete input: deleting a user absent from the
empty database errors and leaves the database unchanged, and so does a
failure injected after three retention steps of a real deletion. -/
theorem C1_deletion_rollback_witness :
    (deleteChannel 0 1 "user_request" Option.none DeletionOptions.none
      dbEmpty).2 = dbEmpty
    ∧ (deleteChannelFault 3 (.api 500 "boom") 0 1 "user_request" Option.none
        DeletionOptions.none dbSample).2 = dbSample :=
  ⟨(C1_deletion_rollback 0 1 "user_request" Option.none DeletionOptions.none
      dbEmpty).1 (.api 500 "Channel deletion failed: User not found")
      (by decide),
   ((C1_deletion_rollback 0 1 "user_request" Option.none DeletionOptions.none
      dbSample).2 3 (.api 500 "boom")).2⟩

/-- C2: every successful `deleteChannel` call appends exactly one tombstone
whose frozen `stats` equal the five pre-deletion counts — active
subscriptions to the channel, published owned videos, total views over owned
videos, like engagements on owned videos, owned comments — computed on the
pre-call state, before any mutation of the deletion transaction; the final
state still carries that unchanged snapshot. -/
theorem C2_stats_snapshot (now : Time) (uid : MongoId) (reason : String)
    (delBy : Option MongoId) (opts : DeletionOptions) (db : DB)
    (res : JsObject)
    (h : (deleteChannel now uid reason delBy opts db).1 = .ok res) :
    ∃ t : DeletedChannelDoc,
      (deleteChannel now uid reason delBy opts db).2.deletedChannels =
        db.deletedChannels ++ [t]
      ∧ t.stats = getChannelStats db uid
      ∧ t.stats.subscriberCount = db.subscriptions.countP
          (fun s => decide (s.channel = uid ∧ s.status = "active"))
      ∧ t.stats.videoCount = db.videos.countP
          (fun v => decide (v.owner = some uid ∧ v.isPublished = true))
      ∧ t.stats.totalViews =
          ((db.videos.filter (fun v => decide (v.owner = some uid))).map
            (fun v => v.views)).sum
      ∧ t.stats.totalLikes = db.engagements.countP
          (fun e => decide (e.content ∈ ownedVideoIds db uid ∧
            e.contentType = "video" ∧ e.engagementType = "like"))
      ∧ t.stats.totalComments = db.comments.countP
          (fun c => decide (c.owner = some uid)) := by
  cases htx : deleteChannelTx now uid reason delBy opts db with
  | error e =>
    rw [deleteChannel_tx_error htx] at h
    exact Except.noConfusion h
  | ok db1 =>
    rw [deleteChannel_tx_ok htx]
    obtain ⟨user, r, hf, hc, hdb1⟩ := deleteChannelTx_ok_elim htx
    have hr := createDeletedChannel_ok_elim hc
    refine ⟨⟨db.nextId, user._id, user.username, user.fullName, user.email,
      getChannelStats db uid, reason, now, delBy, now + recoveryGraceMs, true,
      resolveRetention opts.dataRetention⟩, ?_, rfl, rfl, rfl, rfl, rfl, rfl⟩
    dsimp only
    rw [hdb1, retention_deletedChannels, hr]

/-- Witness for C2 at a concrete input: deleting the sample channel records
its pre-deletion snapshot on the created tombstone. -/
theorem C2_stats_snapshot_witness :
    ∃ t : DeletedChannelDoc,
      (deleteChannel 0 1 "user_request" Option.none DeletionOptions.none
        dbSample).2.deletedChannels = dbSample.deletedChannels ++ [t]
      ∧ t.stats = getChannelStats dbSample 1
      ∧ t.stats.subscriberCount = dbSample.subscriptions.countP
          (fun s => decide (s.channel = 1 ∧ s.status = "active"))
      ∧ t.stats.videoCount = dbSample.videos.countP
          (fun v => decide (v.owner = some 1 ∧ v.isPublished = true))
      ∧ t.stats.totalViews =
          ((dbSample.videos.filter (fun v => decide (v.owner = some 1))).map
            (fun v => v.views)).sum
      ∧ t.stats.totalLikes = dbSample.engagements.countP
          (fun e => decide (e.content ∈ ownedVideoIds dbSample 1 ∧
            e.contentType = "video" ∧ e.engagementType = "like"))
      ∧ t.stats.totalComments = dbSample.comments.countP
          (fun c => decide (c.owner = some 1)) :=
  C2_stats_snapshot 0 1 "user_request" Option.none DeletionOptions.none
    dbSample deleteChannelResult (by decide)

/-- C3: refuted on the code.  In `dbSample` user 2 holds a like on video 10,
which channel 1 owns at the start of the deletion; the deletion succeeds,
yet that engagement is still present afterwards, because `handleEngagements`
reads the owned-video id set only after `handleVideos` has already cleared
the `owner` references.  (The deleted user's own engagement is removed, as
claimed.) -/
theorem C3_engagement_on_owned_content_survives :
    (deleteChannel 0 1 "user_request" Option.none DeletionOptions.none
      dbSample).1 = .ok deleteChannelResult
    ∧ (deleteChannel 0 1 "user_request" Option.none DeletionOptions.none
        dbSample).2.engagements = [likeByOther]
    ∧ likeByOther.user = 2
    ∧ likeByOther.content = sampleVideo._id
    ∧ sampleVideo.owner = some 1
    ∧ sampleVideo ∈ dbSample.videos := by
  refine ⟨by decide, by decide, rfl, rfl, rfl, by decide⟩

/-- C4: refuted on the code at a concrete input.  The sample channel owns a
comment with body "original text"; deleting the channel under the default
`anonymized` comment policy replaces the body with the constant
"[Comment deleted]", so the original non-identity content is not kept
intact as the claim requires for `anonymized`. -/
theorem C4_anonymized_comment_body_replaced :
    (deleteChannel 0 1 "user_request" Option.none DeletionOptions.none
      dbSample).1 = .ok deleteChannelResult
    ∧ sampleComment ∈ dbSample.comments
    ∧ sampleComment.content = "original text"
    ∧ (deleteChannel 0 1 "user_request" Option.none DeletionOptions.none
        dbSample).2.comments = [⟨20, Option.none, "[Comment deleted]"⟩]
    ∧ ("[Comment deleted]" : String) ≠ "original text" := by
  refine ⟨by decide, by decide, rfl, by decide, by decide⟩

/-- C4 amended: actual per-policy effect of a successful deletion on videos
and comments.  `deleted` removes the owned documents; `archived` videos keep
their ids with `owner = null`, unpublished, and a marker title generated
once per call and therefore shared by every video of that deletion;
`anonymized` videos keep their publish state but also get a shared marker
title; `anonymized` comments get `owner = null` and the constant body
"[Comment deleted]"; `archived` comments only get `owner = null`. -/
theorem C4_retention_effects (now : Time) (uid : MongoId) (reason : String)
    (delBy : Option MongoId) (pv pc : String) (whr : Option String) (db : DB)
    (res : JsObject)
    (h : (deleteChannel now uid reason delBy
      ⟨some ⟨some pv, some pc, Option.none⟩, whr⟩ db).1 = .ok res) :
    (pv = "deleted" →
      (deleteChannel now uid reason delBy
        ⟨some ⟨some pv, some pc, Option.none⟩, whr⟩ db).2.videos =
        db.videos.filter (fun v => !decide (v.owner = some uid)))
    ∧ (pv = "archived" → ∃ m,
        (deleteChannel now uid reason delBy
          ⟨some ⟨some pv, some pc, Option.none⟩, whr⟩ db).2.videos =
          db.videos.map (fun v =>
            if v.owner = some uid then
              { v with owner := Option.none, isPublished := false, title := m }
            else v))
    ∧ (pv = "anonymized" → ∃ m,
        (deleteChannel now uid reason delBy
          ⟨some ⟨some pv, some pc, Option.none⟩, whr⟩ db).2.videos =
          db.videos.map (fun v =>
            if v.owner = some uid then
              { v with owner := Option.none, title := m }
            else v))
    ∧ (pc = "deleted" →
        (deleteChannel now uid reason delBy
          ⟨some ⟨some pv, some pc, Option.none⟩, whr⟩ db).2.comments =
          db.comments.filter (fun c => !decide (c.owner = some uid)))
    ∧ (pc = "anonymized" →
        (deleteChannel now uid reason delBy
          ⟨some ⟨some pv, some pc, Option.none⟩, whr⟩ db).2.comments =
          db.comments.map (fun c =>
            if c.owner = some uid then
              { c with owner := Option.none, content := "[Comment deleted]" }
            else c))
    ∧ (pc = "archived" →
        (deleteChannel now uid reason delBy
          ⟨some ⟨some pv, some pc, Option.none⟩, whr⟩ db).2.comments =
          db.comments.map (fun c =>
            if c.owner = some uid then { c with owner := Option.none }
            else c)) := by
  cases htx : deleteChannelTx now uid reason delBy
      ⟨some ⟨some pv, some pc, Option.none⟩, whr⟩ db with
  | error e =>
    rw [deleteChannel_tx_error htx] at h
    exact Except.noConfusion h
  | ok db1 =>
    rw [deleteChannel_tx_ok htx]
    obtain ⟨user, r, hf, hc, hdb1⟩ := deleteChannelTx_ok_elim htx
    have hr := createDeletedChannel_ok_elim hc
    have hrv : r.2.videos = db.videos := by rw [hr]
    have hrc : r.2.comments = db.comments := by rw [hr]
    dsimp only
    rw [hdb1]
    refine ⟨?_, ?_, ?_, ?_, ?_, ?_⟩
    · intro hp
      subst hp
      rw [retention_videos]
      dsimp only [Option.bind, Option.getD]
      rw [handleVideos_deleted, handleSubscriptions_videos, hrv]
    · intro hp
      subst hp
      rw [retention_videos]
      dsimp only [Option.bind, Option.getD]
      refine ⟨"[Deleted Channel] " ++
        toString (handleSubscriptions r.2 uid).nextId, ?_⟩
      rw [handleVideos_archived, handleSubscriptions_videos, hrv]
    · intro hp
      subst hp
      rw [retention_videos]
      dsimp only [Option.bind, Option.getD]
      refine ⟨"[Anonymous] " ++
        toString (handleSubscriptions r.2 uid).nextId, ?_⟩
      rw [handleVideos_anonymized, handleSubscriptions_videos, hrv]
    · intro hp
      subst hp
      rw [retention_comments]
      dsimp only [Option.bind, Option.getD]
      rw [handleComments_deleted, handleVideos_comments,
        handleSubscriptions_comments, hrc]
    · intro hp
      subst hp
      rw [retention_comments]
      dsimp only [Option.bind, Option.getD]
      rw [handleComments_anonymized, handleVideos_comments,
        handleSubscriptions_comments, hrc]
    · intro hp
      subst hp
      rw [retention_comments]
      dsimp only [Option.bind, Option.getD]
      rw [handleComments_archived, handleVideos_comments,
        handleSubscriptions_comments, hrc]

/-- Witness for C4 amended at a concrete input: deleting the sample channel
with archived videos and anonymized comments yields the described states. -/
theorem C4_retention_effects_witness :
    (∃ m,
      (deleteChannel 0 1 "user_request" Option.none
        ⟨some ⟨some "archived", some "anonymized", Option.none⟩, Option.none⟩
        dbSample).2.videos =
        dbSample.videos.map (fun v =>
          if v.owner = some 1 then
            { v with owner := Option.none, isPublished := false, title := m }
          else v))
    ∧ (deleteChannel 0 1 "user_request" Option.none
        ⟨some ⟨some "archived", some "anonymized", Option.none⟩, Option.none⟩
        dbSample).2.comments =
        dbSample.comments.map (fun c =>
          if c.owner = some 1 then
            { c with owner := Option.none, content := "[Comment deleted]" }
          else c) :=
  ⟨(C4_retention_effects 0 1 "user_request" Option.none "archived"
      "anonymized" Option.none dbSample deleteChannelResult (by decide)).2.1
      rfl,
   (C4_retention_effects 0 1 "user_request" Option.none "archived"
      "anonymized" Option.none dbSample deleteChannelResult
      (by decide)).2.2.2.2.1 rfl⟩

/-- C5: the claim's batching conjunct fails on the code.  With 10001 active
subscriptions to channel 1, the first round of the cancellation loop
modifies all 10001 edges in a single `updateMany` — MongoDB's `updateMany`
has no `limit` option, so the `{ limit: 10000 }` option is ignored — and the
loop then observes a second round of 0 modifications and stops: the trace of
per-round modified counts is `[10001, 0]`, and the first round exceeds the
claimed 10000-edge bound. -/
theorem C5_cancellation_unbatched :
    (handleSubscriptionsTrace dbManySubs 1).1 = [10001, 0]
    ∧ ∃ m ∈ (handleSubscriptionsTrace dbManySubs 1).1, batchSize < m := by
  have h10 : (mkSubs 10001).countP (subMatch 1) = 10001 := countP_mkSubs 10001
  have htrace : (handleSubscriptionsTrace dbManySubs 1).1 = [10001, 0] := by
    show (handleSubscriptionsTrace (dbWithSubs (mkSubs 10001)) 1).1 = [10001, 0]
    rw [handleSubscriptionsTrace_unbounded (mkSubs 10001)
      (by rw [h10]; norm_num [batchSize]), h10]
  refine ⟨htrace, 10001, ?_, by norm_num [batchSize]⟩
  rw [htrace]
  exact List.mem_cons_self 10001 [0]

/-- C6: the recovery path of the code can never succeed.  Every User schema
in the repository marks `password` as required, and `recoverChannel` builds
the new user document without one, so `User.create` is rejected by
create-validation even on a live tombstone within its deadline and with an
unused `newUserId`: the transaction aborts (tombstone and database
untouched) and the caller receives an Internal 500 wrapping the validation
message.  Gating failures are likewise surfaced as 500, not as the claimed
Validation error. -/
theorem C6_recovery_never_succeeds :
    tombLive.isRecoverable = true
    ∧ (10 : Time) ≤ tombLive.recoveryDeadline
    ∧ dbLiveTomb.users = []
    ∧ (recoverChannel 10 6 77 dbLiveTomb).1 = .error (.api 500
        "Channel recovery failed: User validation failed: password: Path `password` is required.")
    ∧ (recoverChannel 10 6 77 dbLiveTomb).2 = dbLiveTomb
    ∧ (∀ (now : Time) (dcid newUid : MongoId) (db : DB) (res : JsObject),
        (recoverChannel now dcid newUid db).1 ≠ .ok res)
    ∧ (recoverChannel 10 5 77 dbUsedTomb).1 = .error (.api 500
        "Channel recovery failed: Channel recovery period has expired")
    ∧ (recoverChannel 10 5 77 dbUsedTomb).2 = dbUsedTomb := by
  refine ⟨rfl, by decide, rfl, by decide, by decide, ?_, by decide, by decide⟩
  intro now dcid newUid db res h
  cases htx : recoverChannelTx now dcid newUid db with
  | ok db1 => exact recoverChannelTx_never_ok now dcid newUid db db1 htx
  | error e =>
    rw [recoverChannel_tx_error htx] at h
    exact Except.noConfusion h

/-- C7: refuted on the code.  First, a real deletion under the `archived`
watch-history policy never stores an original-video reference: in
`dbSample`, user 2's record for the channel's video 10 is left completely
untouched (`handleWatchHistory` reads the owned-video set after
`handleVideos` has already cleared ownership).  Second, even for a record in
exactly the claimed shape (archived, reason `channel_deleted`,
`metadata.originalVideoId = oid 10`), the restore operation writes the
literal string "$metadata.originalVideoId" into `video` — a plain update
document does not evaluate field paths — so the record does not regain its
original video id. -/
theorem C7_archive_restore_not_round_trip :
    (deleteChannel 0 1 "user_request" Option.none ⟨Option.none, some "archived"⟩
      dbSample).1 = .ok deleteChannelResult
    ∧ (deleteChannel 0 1 "user_request" Option.none
        ⟨Option.none, some "archived"⟩ dbSample).2.watchHistory = [sampleWatch]
    ∧ sampleWatch.archived = false
    ∧ whClaimShape.metadata.originalVideoId = some (MVal.oid 10)
    ∧ (restoreWatchHistoryForChannel dbClaimShape 7 42).watchHistory =
        [⟨MVal.oid 42, MVal.str "$metadata.originalVideoId", Option.none,
          "unknown", false, Option.none, Option.none, Option.none,
          ⟨some false, Option.none⟩⟩]
    ∧ MVal.str "$metadata.originalVideoId" ≠ MVal.oid 10 := by
  refine ⟨by decide, by decide, rfl, rfl, by decide, by decide⟩

/-- C8: refuted on the code.  A `deleteChannel` call on a missing user and a
`recoverChannel` call on a missing tombstone do raise 404 errors internally,
but the catch-all in each service rewraps them, so the caller receives an
Internal 500 error whose message merely embeds the Not-Found text — the 404
is not surfaced directly. -/
theorem C8_not_found_is_rewrapped :
    (deleteChannel 0 1 "user_request" Option.none DeletionOptions.none
      dbEmpty).1 = .error (.api 500 "Channel deletion failed: User not found")
    ∧ (recoverChannel 0 1 2 dbEmpty).1 =
        .error (.api 500 "Channel recovery failed: Deleted channel not found")
    ∧ (∀ msg, (deleteChannel 0 1 "user_request" Option.none
        DeletionOptions.none dbEmpty).1 ≠ .error (.api 404 msg))
    ∧ (∀ msg, (recoverChannel 0 1 2 dbEmpty).1 ≠ .error (.api 404 msg)) := by
  have hd : (deleteChannel 0 1 "user_request" Option.none DeletionOptions.none
      dbEmpty).1 = .error (.api 500 "Channel deletion failed: User not found") := by
    decide
  have hr : (recoverChannel 0 1 2 dbEmpty).1 =
      .error (.api 500 "Channel recovery failed: Deleted channel not found") := by
    decide
  refine ⟨hd, hr, ?_, ?_⟩
  · intro msg h
    have h2 := hd.symm.trans h
    injection h2 with h3
    injection h3 with h4 h5
    exact absurd h4 (by decide)
  · intro msg h
    have h2 := hr.symm.trans h
    injection h2 with h3
    injection h3 with h4 h5
    exact absurd h4 (by decide)

/-- C9: refuted on the code at a concrete input.  Deleting the sample
channel succeeds and creates a tombstone, but the returned object is
`{ success: true, message: 'Channel deleted successfully' }` — it carries no
`tombstoneId` member at all. -/
theorem C9_no_tombstoneId_in_result :
    (deleteChannel 0 1 "user_request" Option.none DeletionOptions.none
      dbSample).1 = .ok deleteChannelResult
    ∧ (deleteChannel 0 1 "user_request" Option.none DeletionOptions.none
        dbSample).2.deletedChannels.length = 1
    ∧ deleteChannelResult.map Prod.fst = ["success", "message"]
    ∧ ¬ "tombstoneId" ∈ deleteChannelResult.map Prod.fst := by
  refine ⟨by decide, by decide, by decide, by decide⟩

/-- C9 amended: every successful `deleteChannel` call returns the fixed
object `{ success: true, message: 'Channel deleted successfully' }`; the
result records success but does not contain the created tombstone's id. -/
theorem C9_success_return_shape (now : Time) (uid : MongoId) (reason : String)
    (delBy : Option MongoId) (opts : DeletionOptions) (db : DB)
    (res : JsObject)
    (h : (deleteChannel now uid reason delBy opts db).1 = .ok res) :
    res = deleteChannelResult
    ∧ res.lookup "success" = some (.bool true)
    ∧ ¬ "tombstoneId" ∈ res.map Prod.fst := by
  cases htx : deleteChannelTx now uid reason delBy opts db with
  | error e =>
    rw [deleteChannel_tx_error htx] at h
    exact Except.noConfusion h
  | ok db1 =>
    rw [deleteChannel_tx_ok htx] at h
    have hres := Except.ok.inj h
    subst hres
    exact ⟨rfl, by decide, by decide⟩

/-- Witness for C9 amended at a concrete input. -/
theorem C9_success_return_shape_witness :
    deleteChannelResult = deleteChannelResult
    ∧ deleteChannelResult.lookup "success" = some (.bool true)
    ∧ ¬ "tombstoneId" ∈ deleteChannelResult.map Prod.fst :=
  C9_success_return_shape 0 1 "user_request" Option.none DeletionOptions.none
    dbSample deleteChannelResult (by decide)

/-- C10: the set of watch-history records modified by
`restoreWatchHistoryForChannel` is independent of the `deletedChannelId`
argument — the update filter never mentions it — and every record that is
archived with reason `channel_deleted` and carries a
`metadata.originalVideoId` (regardless of which channel's deletion produced
it) has its `user` field set to `newUserId`, all other records being left
unchanged. -/
theorem C10_restore_ignores_deletedChannelId (db : DB)
    (dcid dcid2 newUid : MongoId) :
    restoreWatchHistoryForChannel db dcid newUid =
      restoreWatchHistoryForChannel db dcid2 newUid
    ∧ (restoreWatchHistoryForChannel db dcid newUid).watchHistory =
        db.watchHistory.map (fun w =>
          if w.metadata.originalVideoId.isSome = true ∧ w.archived = true ∧
              w.archivedReason = some "channel_deleted" then
            { w with user := MVal.oid newUid, archived := false,
                     archivedAt := Option.none, archivedReason := Option.none,
                     video := MVal.str "$metadata.originalVideoId",
                     metadata := ⟨some false, Option.none⟩ }
          else w) := by
  refine ⟨rfl, ?_⟩
  unfold restoreWatchHistoryForChannel
  dsimp only
  refine List.map_congr_left ?_
  intro w _
  by_cases h : restoreMatch w = true
  · rw [if_pos h]
    have h2 : (w.metadata.originalVideoId.isSome = true ∧ w.archived = true) ∧
        w.archivedReason = some "channel_deleted" := by
      simpa [restoreMatch, Bool.and_eq_true, decide_eq_true_eq] using h
    rw [if_pos ⟨h2.1.1, h2.1.2, h2.2⟩]
  · rw [if_neg h]
    have h2 : ¬(w.metadata.originalVideoId.isSome = true ∧ w.archived = true ∧
        w.archivedReason = some "channel_deleted") := by
      intro hp
      exact h (by simp [restoreMatch, hp.1, hp.2.1, hp.2.2])
    rw [if_neg h2]

end Tweetube
